import Mathlib

/-!
Shallow embedding of a Product CRUD REST API (Express + Mongoose).

The source consists of a Mongoose schema (`models/Product.js`), an Express
router (`routes/productRoutes.js`) and seven request handlers
(`controllers/productController.js`).  We embed:

* a `Product` record (the persisted document; `_id` is embedded as a `Nat`:
  a well-formed 24-hex-digit ObjectId string decodes injectively to a
  natural number, so the HTTP `:id` path segment is embedded as
  `Option Nat` — `none` stands for a malformed identifier string, for which
  Mongoose raises a `CastError` with `kind = 'ObjectId'` before any query
  is executed, and `some n` for a well-formed identifier with decoded
  value `n`);
* a `Store` for the MongoDB collection: the list of documents, the next
  fresh id, and an `ok` flag modelling driver health (when `ok = false`
  every persistence call rejects, which the handlers' catch-alls map
  to a 500 response);
* field validation from `productSchema` (trim setters, required,
  minlength/maxlength, min, enum), which Mongoose runs before a write and
  reports as a `ValidationError` holding one `ValidatorError` per invalid
  path;
* the seven handlers as pure functions `… → Store → Response × Store`,
  with the JSON envelope reified as a `Response` structure.  Timestamps
  (`timestamps: true` in the schema) are driven by an explicit `now : Nat`
  argument standing for the wall-clock instant of the write.

JavaScript truthiness matters in the controller (`if (!name || !price ||
!category)`): an empty string and the number 0 are falsy, which we model
faithfully with `truthyS` / `truthyI`.
-/

namespace ProductAPI

/-- One persisted Product document.  `id` is the decoded ObjectId. -/
structure Product where
  id : Nat
  name : String
  price : Int
  category : String
  createdAt : Nat
  updatedAt : Nat
deriving Repr, DecidableEq

/-- Payload carried in the `data` field of the JSON envelope: absent, a
single document, or a list of documents. -/
inductive Payload where
  | empty : Payload
  | one : Product → Payload
  | many : List Product → Payload
deriving Repr, DecidableEq

/-- The uniform JSON response envelope produced by the handlers, together
with the HTTP status code.  Fields that a given handler does not set are
`none` / `empty`. -/
structure Response where
  status : Nat
  success : Bool
  message : Option String := none
  data : Payload := Payload.empty
  errors : Option (List String) := none
  count : Option Nat := none
  total : Option Nat := none
  page : Option Int := none
  totalPages : Option Int := none
  deletedCount : Option Nat := none
deriving Repr, DecidableEq

/-- The MongoDB collection plus driver state.  `nextId` is the next fresh
ObjectId value; `ok = false` models a failing driver (every persistence
call rejects and the handler's catch-all answers 500). -/
structure Store where
  products : List Product
  nextId : Nat
  ok : Bool
deriving Repr, DecidableEq

/-- Request body for create/update: `{name?, price?, category?}`; `none`
is a field absent from the JSON body (i.e. `undefined`). -/
structure ProductBody where
  name : Option String := none
  price : Option Int := none
  category : Option String := none
deriving Repr, DecidableEq

/-- Query parameters of the list endpoint.  In the source these arrive as
strings; we embed them at their interpreted types, with `none` for an
absent (or empty, hence falsy) parameter. -/
structure ListQuery where
  category : Option String := none
  minPrice : Option Int := none
  maxPrice : Option Int := none
  sort : Option String := none
  page : Option Int := none
  limit : Option Int := none
deriving Repr, DecidableEq

/-- Embeds the schema's `trim: true` setter (and JavaScript
`String.prototype.trim`): strip surrounding whitespace.  Written over the
character list so that it evaluates by kernel reduction. -/
def jsTrim (s : String) : String :=
  String.mk
    (((s.data.dropWhile Char.isWhitespace).reverse.dropWhile
        Char.isWhitespace).reverse)

/-- Split a character list at every occurrence of the separator
character, keeping empty segments, as JavaScript `split` does. -/
def splitCharAux (c : Char) : List Char → List Char → List (List Char)
  | [], acc => [acc.reverse]
  | x :: xs, acc =>
      if x == c then acc.reverse :: splitCharAux c xs []
      else splitCharAux c xs (x :: acc)

/-- JavaScript `s.split(sep)` for a one-character separator. -/
def jsSplit (c : Char) (s : String) : List String :=
  (splitCharAux c s.data []).map String.mk

/-- JavaScript truthiness of an optional string: `undefined` and `""` are
falsy. -/
def truthyS : Option String → Bool
  | none => false
  | some s => !(s == "")

/-- JavaScript truthiness of an optional number: `undefined` and `0` are
falsy. -/
def truthyI : Option Int → Bool
  | none => false
  | some i => !(i == 0)

/-- The `enum.values` list of the `category` path in `productSchema`. -/
def validCategories : List String :=
  ["Electronics", "Clothing", "Food", "Books", "Toys", "Accessories",
   "Stationery", "Other"]

/-- Validation of the `name` path (after the `trim` setter): `required`,
then `minlength: 3`, then `maxlength: 100`.  Mongoose records at most one
`ValidatorError` per path, the first failing validator in order; for a
string path `required` fails on the empty string. -/
def nameError (t : String) : Option String :=
  if t.length = 0 then some "Product name is required"
  else if t.length < 3 then some "Product name must be at least 3 characters long"
  else if t.length > 100 then some "Product name cannot exceed 100 characters"
  else none

/-- Validation of the `price` path: `min: 0` (message 'Price cannot be
negative').  The schema's additional custom validator `value >= 0`
('Price must be a positive number') can only fail when `min` already
failed, so it never produces the recorded message. -/
def priceError (p : Int) : Option String :=
  if p < 0 then some "Price cannot be negative" else none

/-- Validation of the `category` path (after the `trim` setter):
`required`, then the `enum`, whose message interpolates the offending
value for `{VALUE}`. -/
def categoryError (t : String) : Option String :=
  if t.length = 0 then some "Product category is required"
  else if validCategories.contains t then none
  else some (t ++ " is not a valid category")

/-- The message list of a Mongoose `ValidationError` on a full document:
`Object.values(error.errors).map(err => err.message)`, one message per
invalid path, in schema path order (name, price, category).  Arguments
are the post-setter (trimmed) values. -/
def validateAll (n : String) (p : Int) (c : String) : List String :=
  (nameError n).toList ++ (priceError p).toList ++ (categoryError c).toList

/-- Number of schema paths of a full document that fail validation. -/
def invalidFieldCount (n : String) (p : Int) (c : String) : Nat :=
  (if (nameError n).isSome then 1 else 0) +
  (if (priceError p).isSome then 1 else 0) +
  (if (categoryError c).isSome then 1 else 0)

/-- The 500 envelope produced by every handler's catch-all
(`res.status(500).json({success:false, message:'Server Error', error})`). -/
def serverError : Response :=
  { status := 500, success := false, message := some "Server Error" }

/-- Embeds `createProduct` (POST /api/products).  Checks the falsy guard
`if (!name || !price || !category)`, then `Product.create`: setters
(trim), validation (→ 400 `ValidationError` envelope), then the write
(→ 500 if the driver fails), assigning a fresh id and
`createdAt = updatedAt = now`. -/
def createProduct (now : Nat) (b : ProductBody) (st : Store) :
    Response × Store :=
  if !(truthyS b.name && truthyI b.price && truthyS b.category) then
    ({ status := 400, success := false,
       message := some "Please provide all required fields: name, price, and category" },
     st)
  else
    let n := jsTrim (b.name.getD "")
    let p := b.price.getD 0
    let c := jsTrim (b.category.getD "")
    let errs := validateAll n p c
    if !errs.isEmpty then
      ({ status := 400, success := false, message := some "Validation Error",
         errors := some errs }, st)
    else if !st.ok then (serverError, st)
    else
      let prod : Product :=
        { id := st.nextId, name := n, price := p, category := c,
          createdAt := now, updatedAt := now }
      ({ status := 201, success := true,
         message := some "Product created successfully",
         data := Payload.one prod },
       { st with products := st.products ++ [prod], nextId := st.nextId + 1 })

/-- Embeds `Model.findById` on a well-formed id: the first document whose
`_id` matches. -/
def findDoc (n : Nat) (st : Store) : Option Product :=
  st.products.find? (fun r => r.id == n)

/-- Embeds `getProductById` (GET /api/products/:id).  A malformed id
(`rid = none`) raises a `CastError` during casting, before the driver is
consulted, which the handler maps to 404; a well-formed id that resolves
to no document is also 404. -/
def getProductById (rid : Option Nat) (st : Store) : Response × Store :=
  match rid with
  | none =>
      ({ status := 404, success := false,
         message := some "Invalid product ID" }, st)
  | some n =>
      if !st.ok then (serverError, st)
      else
        match findDoc n st with
        | none =>
            ({ status := 404, success := false,
               message := some "Product not found with ID" }, st)
        | some p =>
            ({ status := 200, success := true, data := Payload.one p }, st)

/-- Three-way comparison derived from a linear order (the order the
driver uses on each indexed field). -/
def cmpo {β : Type} [LinearOrder β] (x y : β) : Ordering :=
  if x < y then Ordering.lt else if x = y then Ordering.eq else Ordering.gt

/-- Comparison of two documents on one named field.  The recognised field
names are the document paths; MongoDB treats a sort on any other path as
comparing missing values, i.e. all documents tie. -/
def fieldCmp (f : String) (a b : Product) : Ordering :=
  if f == "name" then cmpo a.name b.name
  else if f == "price" then cmpo a.price b.price
  else if f == "category" then cmpo a.category b.category
  else if f == "createdAt" then cmpo a.createdAt b.createdAt
  else if f == "updatedAt" then cmpo a.updatedAt b.updatedAt
  else if f == "_id" then cmpo a.id b.id
  else Ordering.eq

/-- One sort key: field name and descending flag. -/
def keyCmp (k : String × Bool) (a b : Product) : Ordering :=
  if k.2 then (fieldCmp k.1 a b).swap else fieldCmp k.1 a b

/-- Composite (lexicographic, left-to-right) comparison along a list of
sort keys, as the MongoDB sort stage applies them. -/
def specCmp : List (String × Bool) → Product → Product → Ordering
  | [], _, _ => Ordering.eq
  | k :: ks, a, b =>
      match keyCmp k a b with
      | Ordering.eq => specCmp ks a b
      | o => o

/-- The non-strict order induced by a sort specification, used to state
that the returned page is sorted. -/
def rSpec (spec : List (String × Bool)) (a b : Product) : Prop :=
  specCmp spec a b ≠ Ordering.gt

instance (spec : List (String × Bool)) : DecidableRel (rSpec spec) :=
  fun a b => by unfold rSpec; infer_instance

/-- Embeds the controller's sort-string handling,
`sort.split(',').join(' ')` handed to Mongoose, which interprets each
token with a leading `-` as descending on that field and ascending
otherwise; an absent parameter yields the default `'-createdAt'`. -/
def parseSort : Option String → List (String × Bool)
  | none => [("createdAt", true)]
  | some s =>
      (jsSplit ',' s).map (fun f =>
        match f.data with
        | '-' :: rest => (String.mk rest, true)
        | _ => (f, false))

/-- The filter object built by `getAllProducts`: exact category match when
the `category` parameter is truthy, and `price: {$gte?, $lte?}` bounds
when `minPrice`/`maxPrice` are truthy. -/
def matchesQuery (q : ListQuery) (r : Product) : Bool :=
  (match q.category with
   | some c => r.category == c
   | none => true) &&
  (match q.minPrice with
   | some m => m ≤ r.price
   | none => true) &&
  (match q.maxPrice with
   | some m => r.price ≤ m
   | none => true)

/-- JavaScript `Math.ceil(total / limit)` for a nonnegative total and a
positive integer limit.  For `limit ≤ 0` the JS expression is `Infinity`
or `NaN`, not an integer; the handler theorems only consider
`1 ≤ limit`, and we return 0 on that unrepresentable branch. -/
def ceilDivJS (total : Nat) (l : Int) : Int :=
  if l ≤ 0 then 0 else (((total : Int) + l - 1) / l)

/-- The cursor's limit stage: `limit(0)` means no limit; a negative
argument caps at the absolute value (single-batch semantics). -/
def applyLimit (l : Int) (xs : List Product) : List Product :=
  if l = 0 then xs else xs.take l.natAbs

/-- Embeds `getAllProducts` (GET /api/products): builds the filter and the
sort specification, pages with `skip = (page-1)*limit` (the driver
rejects a negative skip, which the catch-all maps to 500), and reports
`count` (page size), `total` (full filtered count), `page`, and
`totalPages = Math.ceil(total/limit)`. -/
def getAllProducts (q : ListQuery) (st : Store) : Response × Store :=
  if !st.ok then (serverError, st)
  else
    let filtered := st.products.filter (matchesQuery q)
    let sorted := filtered.insertionSort (rSpec (parseSort q.sort))
    let p := q.page.getD 1
    let l := q.limit.getD 10
    let skip := (p - 1) * l
    if skip < 0 then (serverError, st)
    else
      let pageItems := applyLimit l (sorted.drop skip.toNat)
      ({ status := 200, success := true,
         count := some pageItems.length,
         total := some filtered.length,
         page := some p,
         totalPages := some (ceilDivJS filtered.length l),
         data := Payload.many pageItems }, st)

/-- The message list of a Mongoose `ValidationError` raised by
`findByIdAndUpdate(..., {runValidators: true})`: Mongoose strips
`undefined` values from the update object and runs validators only on the
paths being updated (post-setter, i.e. trimmed). -/
def updErrors (b : ProductBody) : List String :=
  (match b.name with
   | some s => (nameError (jsTrim s)).toList
   | none => []) ++
  (match b.price with
   | some p => (priceError p).toList
   | none => []) ++
  (match b.category with
   | some s => (categoryError (jsTrim s)).toList
   | none => [])

/-- Number of present body fields that fail their validator. -/
def invalidPresentCount (b : ProductBody) : Nat :=
  (match b.name with
   | some s => if (nameError (jsTrim s)).isSome then 1 else 0
   | none => 0) +
  (match b.price with
   | some p => if (priceError p).isSome then 1 else 0
   | none => 0) +
  (match b.category with
   | some s => if (categoryError (jsTrim s)).isSome then 1 else 0
   | none => 0)

/-- The updated document: present fields overwrite (post-trim), absent
fields are untouched, `updatedAt` is refreshed by the timestamps plugin,
`createdAt` and `_id` are never written. -/
def applyUpdate (now : Nat) (b : ProductBody) (r : Product) : Product :=
  { r with
    name := (b.name.map jsTrim).getD r.name
    price := b.price.getD r.price
    category := (b.category.map jsTrim).getD r.category
    updatedAt := now }

/-- Embeds `updateProduct` (PUT /api/products/:id): cast the id (malformed
→ `CastError` → 404), `findById` (absent → 404), then
`findByIdAndUpdate` with `new: true, runValidators: true` (validator
failure → 400 with the message list; success → 200 with the post-update
document). -/
def updateProduct (now : Nat) (rid : Option Nat) (b : ProductBody)
    (st : Store) : Response × Store :=
  match rid with
  | none =>
      ({ status := 404, success := false,
         message := some "Invalid product ID" }, st)
  | some n =>
      if !st.ok then (serverError, st)
      else
        match findDoc n st with
        | none =>
            ({ status := 404, success := false,
               message := some "Product not found with ID" }, st)
        | some r =>
            let errs := updErrors b
            if !errs.isEmpty then
              ({ status := 400, success := false,
                 message := some "Validation Error", errors := some errs },
               st)
            else
              let r2 := applyUpdate now b r
              ({ status := 200, success := true,
                 message := some "Product updated successfully",
                 data := Payload.one r2 },
               { st with
                 products := st.products.map
                   (fun x => if x.id == n then r2 else x) })

/-- Embeds `deleteProduct` (DELETE /api/products/:id): cast (malformed →
404), `findById` (absent → 404), then `findByIdAndDelete`, answering 200
with the deleted document's last state. -/
def deleteProduct (rid : Option Nat) (st : Store) : Response × Store :=
  match rid with
  | none =>
      ({ status := 404, success := false,
         message := some "Invalid product ID" }, st)
  | some n =>
      if !st.ok then (serverError, st)
      else
        match findDoc n st with
        | none =>
            ({ status := 404, success := false,
               message := some "Product not found with ID" }, st)
        | some r =>
            ({ status := 200, success := true,
               message := some "Product deleted successfully",
               data := Payload.one r },
             { st with products := st.products.filter (fun x => !(x.id == n)) })

/-- Embeds `deleteAllProducts` (DELETE /api/products):
`Product.deleteMany({})`, answering 200 with the deleted count. -/
def deleteAllProducts (st : Store) : Response × Store :=
  if !st.ok then (serverError, st)
  else
    ({ status := 200, success := true,
       message := some "Successfully deleted products",
       deletedCount := some st.products.length },
     { st with products := [] })

/-- Embeds `getProductsByCategory` (GET /api/products/category/:category),
via the static `findByCategory`: exact-match filter, 200 with count and
matches. -/
def getProductsByCategory (cat : String) (st : Store) : Response × Store :=
  if !st.ok then (serverError, st)
  else
    let ps := st.products.filter (fun r => r.category == cat)
    ({ status := 200, success := true, count := some ps.length,
       data := Payload.many ps }, st)

/-- The list of documents carried by a payload. -/
def payloadList : Payload → List Product
  | Payload.empty => []
  | Payload.one p => [p]
  | Payload.many ps => ps

/-- Well-formedness of the store: every persisted id was assigned below
the fresh-id counter (so a newly assigned id is distinct from all
existing ones). -/
def Store.WF (st : Store) : Prop :=
  ∀ r ∈ st.products, r.id < st.nextId

instance (st : Store) : Decidable st.WF := by
  unfold Store.WF; infer_instance

/-- Empty healthy store, used as a concrete scenario. -/
def store0 : Store := { products := [], nextId := 0, ok := true }

/-- Two-document healthy store, used as a concrete scenario. -/
def docA : Product :=
  { id := 0, name := "Pen", price := 700, category := "Stationery",
    createdAt := 1, updatedAt := 1 }

/-- Second sample document. -/
def docB : Product :=
  { id := 1, name := "Cap", price := 300, category := "Clothing",
    createdAt := 2, updatedAt := 2 }

/-- Sample store holding `docA` and `docB`. -/
def store2 : Store := { products := [docA, docB], nextId := 2, ok := true }

/-!  Lemmas: the comparator induced by a sort specification is oriented
and transitive, so the sorted page really is sorted. -/

theorem cmpo_swap {β : Type} [LinearOrder β] (x y : β) :
    (cmpo x y).swap = cmpo y x := by
  rcases lt_trichotomy x y with h | h | h
  · simp [cmpo, h, lt_asymm h, h.ne', Ordering.swap]
  · subst h
    simp [cmpo, lt_irrefl, Ordering.swap]
  · simp [cmpo, h, lt_asymm h, h.ne', Ordering.swap]

theorem cmpo_le_iff {β : Type} [LinearOrder β] {x y : β} :
    cmpo x y ≠ Ordering.gt ↔ x ≤ y := by
  unfold cmpo
  split_ifs with h1 h2
  · simp [le_of_lt h1]
  · simp [le_of_eq h2]
  · have hyx : y < x := lt_of_le_of_ne (le_of_not_lt h1) (fun e => h2 e.symm)
    simp [not_le_of_lt hyx]

/-- Positional form of the orientation law of an oriented comparator. -/
theorem orientedSymm {α : Type} (cmp : α → α → Ordering)
    [Batteries.OrientedCmp cmp] (x y : α) :
    (cmp x y).swap = cmp y x :=
  Batteries.OrientedCmp.symm x y

/-- Positional form of the transitivity law of a transitive comparator. -/
theorem transLe {α : Type} (cmp : α → α → Ordering)
    [Batteries.TransCmp cmp] {x y z : α}
    (h1 : cmp x y ≠ Ordering.gt) (h2 : cmp y z ≠ Ordering.gt) :
    cmp x z ≠ Ordering.gt :=
  Batteries.TransCmp.le_trans h1 h2

instance cmpoTC {β : Type} [LinearOrder β] :
    Batteries.TransCmp (fun x y : β => cmpo x y) where
  symm x y := cmpo_swap x y
  le_trans h1 h2 :=
    cmpo_le_iff.mpr (le_trans (cmpo_le_iff.mp h1) (cmpo_le_iff.mp h2))

instance fieldCmpTC (f : String) : Batteries.TransCmp (fieldCmp f) where
  symm a b := by
    unfold fieldCmp
    split_ifs <;> first | rfl | exact cmpo_swap ..
  le_trans {a b c} h1 h2 := by
    unfold fieldCmp at h1 h2 ⊢
    split_ifs at h1 h2 ⊢ <;>
      first
        | exact transLe (fun x y => cmpo x y) h1 h2
        | exact h1

instance keyCmpTC (k : String × Bool) : Batteries.TransCmp (keyCmp k) where
  symm a b := by
    unfold keyCmp
    by_cases h : k.2
    · rw [if_pos h, if_pos h, Ordering.swap_swap,
        orientedSymm (fieldCmp k.1)]
    · rw [if_neg h, if_neg h]
      exact Batteries.OrientedCmp.symm ..
  le_trans {a b c} h1 h2 := by
    unfold keyCmp at h1 h2 ⊢
    by_cases h : k.2
    · rw [if_pos h] at h1 h2 ⊢
      rw [orientedSymm (fieldCmp k.1)] at h1 h2 ⊢
      exact transLe (fieldCmp k.1) h2 h1
    · rw [if_neg h] at h1 h2 ⊢
      exact transLe (fieldCmp k.1) h1 h2

theorem specCmp_cons (k : String × Bool) (ks : List (String × Bool))
    (a b : Product) :
    specCmp (k :: ks) a b = (keyCmp k a b).then (specCmp ks a b) := by
  cases hk : keyCmp k a b <;> simp [specCmp, hk, Ordering.then]

instance specCmpTC (s : List (String × Bool)) :
    Batteries.TransCmp (specCmp s) := by
  induction s with
  | nil =>
      exact { symm := fun a b => rfl,
              le_trans := fun h1 h2 => by simp [specCmp] }
  | cons k ks ih =>
      refine { symm := fun a b => ?_, le_trans := fun {a b c} h1 h2 => ?_ }
      · rw [specCmp_cons, specCmp_cons, Ordering.swap_then,
          orientedSymm (keyCmp k), ih.symm a b]
      · rw [specCmp_cons] at h1 h2 ⊢
        cases hk1 : keyCmp k a b with
        | gt => simp [hk1, Ordering.then] at h1
        | lt =>
            cases hk2 : keyCmp k b c with
            | gt => simp [hk2, Ordering.then] at h2
            | lt =>
                have hac : keyCmp k a c = Ordering.lt :=
                  Batteries.TransCmp.lt_trans hk1 hk2
                simp [hac, Ordering.then]
            | eq =>
                have hac : keyCmp k a c = Ordering.lt :=
                  (Batteries.TransCmp.cmp_congr_right hk2).symm.trans hk1
                simp [hac, Ordering.then]
        | eq =>
            cases hk2 : keyCmp k b c with
            | gt => simp [hk2, Ordering.then] at h2
            | lt =>
                have hac : keyCmp k a c = Ordering.lt :=
                  (Batteries.TransCmp.cmp_congr_left hk1).trans hk2
                simp [hac, Ordering.then]
            | eq =>
                have hac : keyCmp k a c = Ordering.eq :=
                  (Batteries.TransCmp.cmp_congr_left hk1).trans hk2
                rw [hk1] at h1
                rw [hk2] at h2
                simp [Ordering.then] at h1 h2
                simp [hac, Ordering.then]
                exact transLe (specCmp ks) h1 h2

instance rSpecTotal (s : List (String × Bool)) :
    IsTotal Product (rSpec s) := by
  refine ⟨fun a b => ?_⟩
  unfold rSpec
  cases h : specCmp s a b with
  | gt =>
      right
      have hs := orientedSymm (specCmp s) a b
      rw [h] at hs
      rw [← hs]
      simp [Ordering.swap]
  | lt => left; simp [h]
  | eq => left; simp [h]

instance rSpecTrans (s : List (String × Bool)) :
    IsTrans Product (rSpec s) :=
  ⟨fun _ _ _ h1 h2 => transLe (specCmp s) h1 h2⟩

end ProductAPI

namespace ProductAPI

/-- Membership survives the limit stage. -/
theorem mem_applyLimit {l : Int} {xs : List Product} {a : Product}
    (h : a ∈ applyLimit l xs) : a ∈ xs := by
  unfold applyLimit at h
  split at h
  · exact h
  · exact List.mem_of_mem_take h

/-- Characterisation of the list filter: an exact category match when the
parameter is present, and each price bound applied independently, an
absent bound constraining nothing. -/
theorem matchesQuery_iff (q : ListQuery) (p : Product) :
    matchesQuery q p = true ↔
      ((∀ c, q.category = some c → p.category = c) ∧
       (∀ m, q.minPrice = some m → m ≤ p.price) ∧
       (∀ m, q.maxPrice = some m → p.price ≤ m)) := by
  unfold matchesQuery
  cases q.category <;> cases q.minPrice <;> cases q.maxPrice <;>
    simp [beq_iff_eq, and_assoc]

/-- Sortedness survives the skip and limit stages. -/
theorem sorted_applyLimit_drop (spec : List (String × Bool)) (li : Int)
    (k : Nat) (xs : List Product) (h : List.Sorted (rSpec spec) xs) :
    List.Sorted (rSpec spec) (applyLimit li (xs.drop k)) := by
  have h1 : List.Sorted (rSpec spec) (xs.drop k) :=
    List.Pairwise.sublist (List.drop_sublist k xs) h
  unfold applyLimit
  split
  · exact h1
  · exact List.Pairwise.sublist (List.take_sublist _ _) h1

/-- For a positive integer limit, the JavaScript expression
`Math.ceil(total / limit)` embedded by `ceilDivJS` is the ceiling of the
exact rational quotient. -/
theorem ceilDivJS_eq_ceil (t : Nat) (l : Int) (hl : 1 ≤ l) :
    ceilDivJS t l = ⌈(t : ℚ) / (l : ℚ)⌉ := by
  unfold ceilDivJS
  rw [if_neg (by omega)]
  have hlq : (0 : ℚ) < (l : ℚ) := by exact_mod_cast hl
  symm
  rw [Int.ceil_eq_iff]
  have heq : l * (((t : Int) + l - 1) / l) + ((t : Int) + l - 1) % l
      = (t : Int) + l - 1 := Int.ediv_add_emod _ _
  have hr0 : 0 ≤ ((t : Int) + l - 1) % l := Int.emod_nonneg _ (by omega)
  have hrl : ((t : Int) + l - 1) % l < l := Int.emod_lt_of_pos _ (by omega)
  have hmul : (((t : Int) + l - 1) / l) * l
      = (t : Int) + l - 1 - ((t : Int) + l - 1) % l := by
    linarith [heq, mul_comm l (((t : Int) + l - 1) / l)]
  constructor
  · rw [lt_div_iff₀ hlq]
    have hlt : ((((t : Int) + l - 1) / l) - 1) * l < (t : Int) := by
      rw [sub_one_mul, hmul]; omega
    exact_mod_cast hlt
  · rw [div_le_iff₀ hlq]
    have hle : (t : Int) ≤ (((t : Int) + l - 1) / l) * l := by
      rw [hmul]; omega
    exact_mod_cast hle

/-- Looking up an id that no existing document carries finds exactly the
freshly appended document. -/
theorem find_append_last {l : List Product} {n : Nat}
    (h : ∀ r ∈ l, r.id ≠ n) (p : Product) (hp : p.id = n) :
    (l ++ [p]).find? (fun r => r.id == n) = some p := by
  induction l with
  | nil => simp [List.find?, hp]
  | cons a l ih =>
      have ha : ¬(a.id = n) := h a (List.mem_cons_self a l)
      rw [List.cons_append,
        List.find?_cons_of_neg _ (by simpa using ha)]
      exact ih (fun r hr => h r (List.mem_cons_of_mem a hr))

/-- Length of an optional singleton. -/
theorem optToListLen {α : Type} (o : Option α) :
    o.toList.length = if o.isSome then 1 else 0 := by
  cases o <;> rfl

/-- The full-document validation message list has exactly one message per
invalid schema path. -/
theorem validateAll_length (n : String) (p : Int) (c : String) :
    (validateAll n p c).length = invalidFieldCount n p c := by
  simp [validateAll, invalidFieldCount, optToListLen, Nat.add_assoc]

/-- The update validation message list has exactly one message per invalid
present field. -/
theorem updErrors_length (b : ProductBody) :
    (updErrors b).length = invalidPresentCount b := by
  rcases b with ⟨bn, bp, bc⟩
  cases bn <;> cases bp <;> cases bc <;>
    simp [updErrors, invalidPresentCount, optToListLen, Nat.add_assoc]

/-- C1, amended: for every input whose trimmed name length lies in
[3,100], whose price is strictly positive, and whose category is in the
enumerated set, create answers 201, and a subsequent get-by-id on the
assigned id returns that same record: its name is the trimmed input name,
price and category are identical, the id is the assigned fresh one, and
createdAt equals updatedAt.  (As written the claim fails: price 0
satisfies `price >= 0` but is rejected by the controller's falsy
required-fields guard, and a name with surrounding whitespace is stored
trimmed, so the returned name is not identical to the input.) -/
theorem C1_create_get (now : Nat) (st : Store) (nm : String) (pv : Int)
    (cat : String) (hok : st.ok = true) (hwf : st.WF)
    (h3 : 3 ≤ (jsTrim nm).length) (h100 : (jsTrim nm).length ≤ 100)
    (hp : 0 < pv) (hc : cat ∈ validCategories) :
    ∃ prod : Product,
      (createProduct now ⟨some nm, some pv, some cat⟩ st).1.status = 201 ∧
      (createProduct now ⟨some nm, some pv, some cat⟩ st).1.data
        = Payload.one prod ∧
      prod.name = jsTrim nm ∧
      prod.price = pv ∧
      prod.category = cat ∧
      prod.createdAt = prod.updatedAt ∧
      (getProductById (some prod.id)
        (createProduct now ⟨some nm, some pv, some cat⟩ st).2).1.status = 200 ∧
      (getProductById (some prod.id)
        (createProduct now ⟨some nm, some pv, some cat⟩ st).2).1.data
        = Payload.one prod := by
  have hne : nm ≠ "" := by
    rintro rfl
    exact absurd h3 (by decide)
  have htrimcat : jsTrim cat = cat := by fin_cases hc <;> decide
  have hcatne : cat ≠ "" := by fin_cases hc <;> decide
  have hguard : (truthyS (some nm) && truthyI (some pv) && truthyS (some cat))
      = true := by
    simp [truthyS, truthyI, hne, hcatne, hp.ne']
  have hnerr : nameError (jsTrim nm) = none := by
    unfold nameError
    rw [if_neg (by omega), if_neg (by omega), if_neg (by omega)]
  have hperr : priceError pv = none := by
    unfold priceError
    rw [if_neg (by omega)]
  have hcerr : categoryError (jsTrim cat) = none := by
    fin_cases hc <;> decide
  have hval : validateAll (jsTrim nm) pv (jsTrim cat) = [] := by
    simp [validateAll, hnerr, hperr, hcerr]
  refine ⟨{ id := st.nextId, name := jsTrim nm, price := pv,
            category := jsTrim cat, createdAt := now, updatedAt := now },
          ?_⟩
  have hfind :
      findDoc st.nextId
        { st with
          products := st.products ++
            [{ id := st.nextId, name := jsTrim nm, price := pv,
               category := jsTrim cat, createdAt := now, updatedAt := now }],
          nextId := st.nextId + 1 }
        = some { id := st.nextId, name := jsTrim nm, price := pv,
                 category := jsTrim cat, createdAt := now,
                 updatedAt := now } := by
    unfold findDoc
    exact find_append_last (fun r hr => Nat.ne_of_lt (hwf r hr)) _ rfl
  rw [hok] at hfind
  simp only [createProduct, hguard, Bool.not_true, Bool.false_eq_true,
    if_false, Option.getD_some, hval, List.isEmpty_nil, Bool.not_false,
    if_true, hok, getProductById, hfind]
  simp [htrimcat]

/-- C1, counterexample to the claim as stated: the valid input
{name: \"Laptop\", price: 0, category: \"Electronics\"} (price >= 0) is
answered 400, not 201; and creating {name: \" Laptop \"} (trimmed length 6)
succeeds but get-by-id returns name \"Laptop\", not the identical input
string. -/
theorem C1_cex :
    (createProduct 5 ⟨some "Laptop", some 0, some "Electronics"⟩
        store0).1.status = 400 ∧
    (getProductById (some 0)
        (createProduct 5 ⟨some " Laptop ", some 100, some "Electronics"⟩
          store0).2).1.data
      = Payload.one { id := 0, name := "Laptop", price := 100,
                      category := "Electronics", createdAt := 5,
                      updatedAt := 5 } ∧
    "Laptop" ≠ " Laptop " := by
  decide

/-- C1, witness: concrete instantiation of the amended round trip. -/
theorem C1_witness :
    ∃ prod : Product,
      (createProduct 7 ⟨some "Laptop", some 1200, some "Electronics"⟩
          store0).1.status = 201 ∧
      (createProduct 7 ⟨some "Laptop", some 1200, some "Electronics"⟩
          store0).1.data = Payload.one prod ∧
      prod.name = jsTrim "Laptop" ∧
      prod.price = 1200 ∧
      prod.category = "Electronics" ∧
      prod.createdAt = prod.updatedAt ∧
      (getProductById (some prod.id)
        (createProduct 7 ⟨some "Laptop", some 1200, some "Electronics"⟩
          store0).2).1.status = 200 ∧
      (getProductById (some prod.id)
        (createProduct 7 ⟨some "Laptop", some 1200, some "Electronics"⟩
          store0).2).1.data = Payload.one prod :=
  C1_create_get 7 store0 "Laptop" 1200 "Electronics" (by decide) (by decide)
    (by decide) (by decide) (by decide) (by decide)

/-- C2, amended: when name, price or category is absent from the create
body, the handler answers 400 with the fixed message naming all three
required fields (not the absent one specifically), and the store is
unchanged. -/
theorem C2_missing (now : Nat) (b : ProductBody) (st : Store)
    (h : b.name = none ∨ b.price = none ∨ b.category = none) :
    (createProduct now b st).1.status = 400 ∧
    (createProduct now b st).1.message =
      some "Please provide all required fields: name, price, and category" ∧
    (createProduct now b st).2 = st := by
  have hguard : (truthyS b.name && truthyI b.price && truthyS b.category)
      = false := by
    rcases h with h | h | h <;> simp [truthyS, truthyI, h]
  simp [createProduct, hguard]

/-- C2, witness: create with name absent on the empty store. -/
theorem C2_witness :
    (createProduct 3 ⟨none, some 5, some "Food"⟩ store0).1.status = 400 ∧
    (createProduct 3 ⟨none, some 5, some "Food"⟩ store0).1.message =
      some "Please provide all required fields: name, price, and category" ∧
    (createProduct 3 ⟨none, some 5, some "Food"⟩ store0).2 = store0 :=
  C2_missing 3 ⟨none, some 5, some "Food"⟩ store0 (Or.inl rfl)

/-- C2, counterexample to the claim as stated: the 400 response carries
the identical message whether name or price is the absent field, so the
error does not name which of the three is missing. -/
theorem C2_cex :
    (createProduct 3 ⟨none, some 5, some "Food"⟩ store0).1.status = 400 ∧
    (createProduct 3 ⟨some "Pasta", none, some "Food"⟩ store0).1.status
      = 400 ∧
    (createProduct 3 ⟨none, some 5, some "Food"⟩ store0).1.message =
      (createProduct 3 ⟨some "Pasta", none, some "Food"⟩ store0).1.message := by
  decide

/-- C3, amended: for create requests whose three fields are all present
and truthy with two or more violating their constraints, and for update
requests on an existing id with two or more present fields violating
their constraints, the response is 400 and carries the validation message
list with exactly one human-readable message per violated field. -/
theorem C3_batch (now : Nat) (st : Store) (nm : String) (pv : Int)
    (cat : String) (hn : nm ≠ "") (hpv : pv ≠ 0) (hcat : cat ≠ "")
    (h2 : 2 ≤ invalidFieldCount (jsTrim nm) pv (jsTrim cat))
    (rid : Nat) (r : Product) (hfound : findDoc rid st = some r)
    (hok : st.ok = true) (b : ProductBody)
    (hb2 : 2 ≤ invalidPresentCount b) :
    ((createProduct now ⟨some nm, some pv, some cat⟩ st).1.status = 400 ∧
     (createProduct now ⟨some nm, some pv, some cat⟩ st).1.errors =
       some (validateAll (jsTrim nm) pv (jsTrim cat)) ∧
     (validateAll (jsTrim nm) pv (jsTrim cat)).length =
       invalidFieldCount (jsTrim nm) pv (jsTrim cat)) ∧
    ((updateProduct now (some rid) b st).1.status = 400 ∧
     (updateProduct now (some rid) b st).1.errors = some (updErrors b) ∧
     (updErrors b).length = invalidPresentCount b) := by
  have hguard : (truthyS (some nm) && truthyI (some pv) && truthyS (some cat))
      = true := by
    simp [truthyS, truthyI, hn, hpv, hcat]
  have hvne : validateAll (jsTrim nm) pv (jsTrim cat) ≠ [] := by
    intro e
    have hlen := validateAll_length (jsTrim nm) pv (jsTrim cat)
    rw [e] at hlen
    simp at hlen
    omega
  have hbne : updErrors b ≠ [] := by
    intro e
    have hlen := updErrors_length b
    rw [e] at hlen
    simp at hlen
    omega
  refine ⟨?_, ?_⟩
  · simp [createProduct, hguard, hvne, validateAll_length]
  · simp [updateProduct, hok, hfound, hbne, updErrors_length]

/-- C3, witness: create with a 2-character name and negative price, and
update of an existing document with an invalid name and price. -/
theorem C3_witness :
    ((createProduct 4 ⟨some "ab", some (-5), some "Electronics"⟩
        store2).1.status = 400 ∧
     (createProduct 4 ⟨some "ab", some (-5), some "Electronics"⟩
        store2).1.errors =
       some (validateAll (jsTrim "ab") (-5) (jsTrim "Electronics")) ∧
     (validateAll (jsTrim "ab") (-5) (jsTrim "Electronics")).length =
       invalidFieldCount (jsTrim "ab") (-5) (jsTrim "Electronics")) ∧
    ((updateProduct 4 (some 0) ⟨some "x", some (-2), none⟩
        store2).1.status = 400 ∧
     (updateProduct 4 (some 0) ⟨some "x", some (-2), none⟩ store2).1.errors
       = some (updErrors ⟨some "x", some (-2), none⟩) ∧
     (updErrors ⟨some "x", some (-2), none⟩).length =
       invalidPresentCount ⟨some "x", some (-2), none⟩) :=
  C3_batch 4 store2 "ab" (-5) "Electronics" (by decide) (by decide)
    (by decide) (by decide) 0 docA (by decide) (by decide)
    ⟨some "x", some (-2), none⟩ (by decide)

/-- C3, counterexample to the claim as stated: in the create request
{name: \"\", price: -5, category: \"Bogus\"} all three fields are present and
at least two violate their constraints, yet the empty (falsy) name trips
the required-fields guard first: the 400 response carries no message
list at all. -/
theorem C3_cex :
    (createProduct 3 ⟨some "", some (-5), some "Bogus"⟩ store0).1.status
      = 400 ∧
    (createProduct 3 ⟨some "", some (-5), some "Bogus"⟩ store0).1.errors
      = none := by
  decide

/-- C4: a malformed :id makes get-by-id, update and delete-by-id all
answer 404 (the CastError branch), the same status an id-shaped but
nonexistent identifier receives. -/
theorem C4_notfound (b : ProductBody) (now : Nat) (st : Store) (n : Nat)
    (hok : st.ok = true) (habs : findDoc n st = none) :
    (getProductById none st).1.status = 404 ∧
    (updateProduct now none b st).1.status = 404 ∧
    (deleteProduct none st).1.status = 404 ∧
    (getProductById (some n) st).1.status = 404 ∧
    (updateProduct now (some n) b st).1.status = 404 ∧
    (deleteProduct (some n) st).1.status = 404 := by
  simp [getProductById, updateProduct, deleteProduct, hok, habs]

/-- C4, witness: malformed id and the absent id 99 on the sample store. -/
theorem C4_witness :
    (getProductById none store2).1.status = 404 ∧
    (updateProduct 6 none ⟨none, none, none⟩ store2).1.status = 404 ∧
    (deleteProduct none store2).1.status = 404 ∧
    (getProductById (some 99) store2).1.status = 404 ∧
    (updateProduct 6 (some 99) ⟨none, none, none⟩ store2).1.status = 404 ∧
    (deleteProduct (some 99) store2).1.status = 404 :=
  C4_notfound ⟨none, none, none⟩ 6 store2 99 (by decide) (by decide)

/-- C5: on a healthy store, with page and limit positive (their values
defaulting to 1 and 10 when the parameters are absent), the list handler
answers 200 with the window that skips exactly (page-1)*limit of the
sorted matching records and takes at most limit of them, count equal to
the number of items in the page, total equal to the full filtered count,
and totalPages the ceiling of total/limit. -/
theorem C5_pagination (q : ListQuery) (st : Store)
    (hok : st.ok = true) (hp : 1 ≤ q.page.getD 1) (hl : 1 ≤ q.limit.getD 10) :
    (getAllProducts q st).1.status = 200 ∧
    (getAllProducts q st).1.page = some (q.page.getD 1) ∧
    (getAllProducts q st).1.data =
      Payload.many
        ((((st.products.filter (matchesQuery q)).insertionSort
              (rSpec (parseSort q.sort))).drop
            ((q.page.getD 1 - 1) * q.limit.getD 10).toNat).take
          (q.limit.getD 10).toNat) ∧
    (getAllProducts q st).1.count =
      some (payloadList (getAllProducts q st).1.data).length ∧
    (getAllProducts q st).1.total =
      some (st.products.filter (matchesQuery q)).length ∧
    (getAllProducts q st).1.totalPages =
      some ⌈((st.products.filter (matchesQuery q)).length : ℚ) /
            (q.limit.getD 10 : ℚ)⌉ := by
  have hskip : ¬((q.page.getD 1 - 1) * q.limit.getD 10 < 0) := by
    push_neg
    exact mul_nonneg (by omega) (by omega)
  have hne : ¬(q.limit.getD 10 = 0) := by omega
  have habs : (q.limit.getD 10).natAbs = (q.limit.getD 10).toNat := by omega
  simp only [getAllProducts, hok, Bool.not_true, Bool.false_eq_true, if_false,
    hskip, applyLimit, hne, if_neg, payloadList, habs,
    ceilDivJS_eq_ceil _ _ hl]
  simp [payloadList]

/-- C5, witness: page 2 with limit 1 on the two-document store. -/
theorem C5_witness :
    1 ≤ (({ page := some 2, limit := some 1 } : ListQuery)).page.getD 1 ∧
    (getAllProducts { page := some 2, limit := some 1 } store2).1.status
      = 200 ∧
    (getAllProducts { page := some 2, limit := some 1 } store2).1.total =
      some (store2.products.filter
        (matchesQuery { page := some 2, limit := some 1 })).length ∧
    (getAllProducts { page := some 2, limit := some 1 } store2).1.totalPages
      = some ⌈((store2.products.filter
            (matchesQuery { page := some 2, limit := some 1 })).length : ℚ) /
          ((({ page := some 2, limit := some 1 } : ListQuery)).limit.getD 10
            : ℚ)⌉ := by
  have h := C5_pagination { page := some 2, limit := some 1 } store2
    (by decide) (by decide) (by decide)
  exact ⟨by decide, h.1, h.2.2.2.2.1, h.2.2.2.2.2⟩

/-- C6: every record in a list response respects the present price
bounds, and the filter predicate is exactly the conjunction of the
category match and the two independent bounds, an absent bound
constraining nothing. -/
theorem C6_bounds (q : ListQuery) (st : Store) (r : Product)
    (hmem : r ∈ payloadList (getAllProducts q st).1.data) :
    ((∀ m, q.minPrice = some m → m ≤ r.price) ∧
     (∀ m, q.maxPrice = some m → r.price ≤ m)) ∧
    (∀ p : Product,
      matchesQuery q p = true ↔
        ((∀ c, q.category = some c → p.category = c) ∧
         (∀ m, q.minPrice = some m → m ≤ p.price) ∧
         (∀ m, q.maxPrice = some m → p.price ≤ m))) := by
  refine ⟨?_, fun p => matchesQuery_iff q p⟩
  have hmem2 : r ∈ st.products.filter (matchesQuery q) := by
    revert hmem
    simp only [getAllProducts]
    split
    · simp [serverError, payloadList]
    · split
      · simp [serverError, payloadList]
      · simp only [payloadList]
        intro hmem
        exact (List.mem_insertionSort _).mp
          (List.mem_of_mem_drop (mem_applyLimit hmem))
  have hq := (List.mem_filter.mp hmem2).2
  have hc := (matchesQuery_iff q r).mp hq
  exact ⟨hc.2.1, hc.2.2⟩

/-- C6, witness: docA (price 700) is returned for minPrice=500,
maxPrice=2000. -/
theorem C6_witness :
    ((∀ m, ({ minPrice := some 500, maxPrice := some 2000 }
        : ListQuery).minPrice = some m → m ≤ docA.price) ∧
     (∀ m, ({ minPrice := some 500, maxPrice := some 2000 }
        : ListQuery).maxPrice = some m → docA.price ≤ m)) ∧
    (∀ p : Product,
      matchesQuery { minPrice := some 500, maxPrice := some 2000 } p
        = true ↔
        ((∀ c, ({ minPrice := some 500, maxPrice := some 2000 }
            : ListQuery).category = some c → p.category = c) ∧
         (∀ m, ({ minPrice := some 500, maxPrice := some 2000 }
            : ListQuery).minPrice = some m → m ≤ p.price) ∧
         (∀ m, ({ minPrice := some 500, maxPrice := some 2000 }
            : ListQuery).maxPrice = some m → p.price ≤ m))) :=
  C6_bounds { minPrice := some 500, maxPrice := some 2000 } store2 docA
    (by decide)

/-- C7: the returned page is always sorted by the comparator obtained
from the sort parameter: comma-separated field names, a leading dash
meaning descending, composed left-to-right, and the default being
createdAt descending when the parameter is absent. -/
theorem C7_sort (q : ListQuery) (st : Store) :
    List.Sorted (rSpec (parseSort q.sort))
      (payloadList (getAllProducts q st).1.data) ∧
    parseSort none = [("createdAt", true)] ∧
    parseSort (some "price,-name") = [("price", false), ("name", true)] := by
  refine ⟨?_, by decide, by decide⟩
  simp only [getAllProducts]
  split
  · simp [serverError, payloadList]
  · split
    · simp [serverError, payloadList]
    · simp only [payloadList]
      exact sorted_applyLimit_drop _ _ _ _ (List.sorted_insertionSort _ _)

/-- C8: update of a well-formed but nonexistent id answers 404 and leaves
the store unchanged; update of an existing id with valid supplied fields
answers 200 with the post-update record, which keeps its id and
createdAt, carries every supplied field's new value and every absent
field's old value, and has updatedAt refreshed to the update instant —
strictly greater than the pre-update value whenever the update happens
strictly later. -/
theorem C8_update (now : Nat) (st : Store) (b : ProductBody) (n : Nat)
    (hok : st.ok = true) :
    (findDoc n st = none →
      (updateProduct now (some n) b st).1.status = 404 ∧
      (updateProduct now (some n) b st).2 = st) ∧
    (∀ r, findDoc n st = some r → updErrors b = [] →
      (updateProduct now (some n) b st).1.status = 200 ∧
      (updateProduct now (some n) b st).1.data
        = Payload.one (applyUpdate now b r) ∧
      (applyUpdate now b r).id = r.id ∧
      (applyUpdate now b r).createdAt = r.createdAt ∧
      (applyUpdate now b r).updatedAt = now ∧
      (∀ v, b.price = some v → (applyUpdate now b r).price = v) ∧
      (b.price = none → (applyUpdate now b r).price = r.price) ∧
      (b.name = none → (applyUpdate now b r).name = r.name) ∧
      (b.category = none → (applyUpdate now b r).category = r.category) ∧
      (r.updatedAt < now → r.updatedAt < (applyUpdate now b r).updatedAt)) := by
  constructor
  · intro h
    simp [updateProduct, hok, h]
  · intro r hr hemp
    have h1 : (updateProduct now (some n) b st).1.status = 200 ∧
        (updateProduct now (some n) b st).1.data
          = Payload.one (applyUpdate now b r) := by
      simp [updateProduct, hok, hr, hemp]
    refine ⟨h1.1, h1.2, rfl, rfl, rfl, ?_, ?_, ?_, ?_, fun h => h⟩
    · intro v hv
      simp [applyUpdate, hv]
    · intro hv
      simp [applyUpdate, hv]
    · intro hv
      simp [applyUpdate, hv]
    · intro hv
      simp [applyUpdate, hv]

/-- C8, witness: updating docB's price to 1500 at time 10. -/
theorem C8_witness :
    (findDoc 1 store2 = none →
      (updateProduct 10 (some 1) ⟨none, some 1500, none⟩ store2).1.status
        = 404 ∧
      (updateProduct 10 (some 1) ⟨none, some 1500, none⟩ store2).2
        = store2) ∧
    (∀ r, findDoc 1 store2 = some r →
      updErrors ⟨none, some 1500, none⟩ = [] →
      (updateProduct 10 (some 1) ⟨none, some 1500, none⟩ store2).1.status
        = 200 ∧
      (updateProduct 10 (some 1) ⟨none, some 1500, none⟩ store2).1.data
        = Payload.one (applyUpdate 10 ⟨none, some 1500, none⟩ r) ∧
      (applyUpdate 10 ⟨none, some 1500, none⟩ r).id = r.id ∧
      (applyUpdate 10 ⟨none, some 1500, none⟩ r).createdAt = r.createdAt ∧
      (applyUpdate 10 ⟨none, some 1500, none⟩ r).updatedAt = 10 ∧
      (∀ v, (⟨none, some 1500, none⟩ : ProductBody).price = some v →
        (applyUpdate 10 ⟨none, some 1500, none⟩ r).price = v) ∧
      ((⟨none, some 1500, none⟩ : ProductBody).price = none →
        (applyUpdate 10 ⟨none, some 1500, none⟩ r).price = r.price) ∧
      ((⟨none, some 1500, none⟩ : ProductBody).name = none →
        (applyUpdate 10 ⟨none, some 1500, none⟩ r).name = r.name) ∧
      ((⟨none, some 1500, none⟩ : ProductBody).category = none →
        (applyUpdate 10 ⟨none, some 1500, none⟩ r).category = r.category) ∧
      (r.updatedAt < 10 →
        r.updatedAt < (applyUpdate 10 ⟨none, some 1500, none⟩ r).updatedAt)) :=
  C8_update 10 store2 ⟨none, some 1500, none⟩ 1 (by decide)

/-- C9: delete-all answers 200 with deletedCount equal to the number of
stored records, and a subsequent default list returns zero records. -/
theorem C9_deleteAll (st : Store) (hok : st.ok = true) :
    (deleteAllProducts st).1.status = 200 ∧
    (deleteAllProducts st).1.deletedCount = some st.products.length ∧
    (deleteAllProducts st).2.products = [] ∧
    payloadList (getAllProducts {} (deleteAllProducts st).2).1.data = [] ∧
    (getAllProducts {} (deleteAllProducts st).2).1.count = some 0 := by
  simp [deleteAllProducts, hok, getAllProducts, applyLimit, payloadList]

/-- C9, witness: delete-all on the two-document store. -/
theorem C9_witness :
    (deleteAllProducts store2).1.status = 200 ∧
    (deleteAllProducts store2).1.deletedCount
      = some store2.products.length ∧
    (deleteAllProducts store2).2.products = [] ∧
    payloadList (getAllProducts {} (deleteAllProducts store2).2).1.data
      = [] ∧
    (getAllProducts {} (deleteAllProducts store2).2).1.count = some 0 :=
  C9_deleteAll store2 (by decide)

/-- C10: for every request to each of the seven handlers, the envelope's
boolean success field is true exactly when the HTTP status is 200 or
201. -/
theorem C10_success_iff (now : Nat) (st : Store) (b : ProductBody)
    (q : ListQuery) (rid : Option Nat) (cat : String) :
    ((createProduct now b st).1.success = true ↔
      ((createProduct now b st).1.status = 200 ∨
       (createProduct now b st).1.status = 201)) ∧
    ((getAllProducts q st).1.success = true ↔
      ((getAllProducts q st).1.status = 200 ∨
       (getAllProducts q st).1.status = 201)) ∧
    ((getProductById rid st).1.success = true ↔
      ((getProductById rid st).1.status = 200 ∨
       (getProductById rid st).1.status = 201)) ∧
    ((updateProduct now rid b st).1.success = true ↔
      ((updateProduct now rid b st).1.status = 200 ∨
       (updateProduct now rid b st).1.status = 201)) ∧
    ((deleteProduct rid st).1.success = true ↔
      ((deleteProduct rid st).1.status = 200 ∨
       (deleteProduct rid st).1.status = 201)) ∧
    ((deleteAllProducts st).1.success = true ↔
      ((deleteAllProducts st).1.status = 200 ∨
       (deleteAllProducts st).1.status = 201)) ∧
    ((getProductsByCategory cat st).1.success = true ↔
      ((getProductsByCategory cat st).1.status = 200 ∨
       (getProductsByCategory cat st).1.status = 201)) := by
  refine ⟨?_, ?_, ?_, ?_, ?_, ?_, ?_⟩
  · simp only [createProduct]
    split
    · simp
    · split
      · simp
      · split
        · simp [serverError]
        · simp
  · simp only [getAllProducts]
    split
    · simp [serverError]
    · split
      · simp [serverError]
      · simp
  · cases rid with
    | none => simp [getProductById]
    | some n =>
        simp only [getProductById]
        split
        · simp [serverError]
        · cases findDoc n st <;> simp
  · cases rid with
    | none => simp [updateProduct]
    | some n =>
        simp only [updateProduct]
        split
        · simp [serverError]
        · split
          · simp
          · split
            · simp
            · simp
  · cases rid with
    | none => simp [deleteProduct]
    | some n =>
        simp only [deleteProduct]
        split
        · simp [serverError]
        · cases findDoc n st <;> simp
  · simp only [deleteAllProducts]
    split
    · simp [serverError]
    · simp
  · simp only [getProductsByCategory]
    split
    · simp [serverError]
    · simp

end ProductAPI
